import Mathlib

/-!
# Verification of the `monitor_dc_temp` SLO alerting core

This development embeds, in Lean, the alert-evaluation logic of
`MonitorDCTemp.get_nonblocking_weather`, the shared breach counter
`MonitorDCTemp.counter`, the geolocation setter `MonitorDCTemp.set_location`,
and the semaphore-bounded polling pool wired up by `parse_cmdline`
(`asyncio.Semaphore(mon.semaphores)` shared by `mon.semaphores` polling tasks).

Conventions of the embedding:
* Python floats (`time.time()`, temperatures, the threshold, the density-floor
  formula `self.semaphores * (self.slo / 10) - 1`) are modelled as rationals;
  the values the program manipulates are small and the claims are purely
  order-theoretic.
* `self.count` is a Python `int` and is modelled as `ℤ` (it could in principle
  go negative, which is exactly what claim C10 is about).
* One evaluation step receives a single timestamp `now`; inside one evaluation
  the source calls `time.time()` several times, but no suspension point is
  crossed between those calls.
* An uncaught Python exception escaping the polling loop is modelled as
  `Except.error st` where `st` is the (unmodified) tracker state at the moment
  the exception escaped: the task dies, the state survives untouched.
-/

namespace MonitorDCTemp

/-- Severity of an emitted notification: a `notify` call from the breach
branch (SLO reached) or from the clearing branch (SLO cleared). -/
inductive Severity
  | breach
  | clear
  deriving DecidableEq, Repr

/-- The configuration attributes of a `MonitorDCTemp` instance that the
evaluation logic reads: `self.threshold` (default 90), `self.slo`
(default 300) and `self.semaphores` (default 2, also the worker count). -/
structure Config where
  threshold : ℚ
  slo : ℤ
  semaphores : ℕ
  deriving DecidableEq, Repr

/-- The environment-default configuration: `THRESHOLD_TEMP`, `SLO_TEMP` and
`SEMAPHORES` unset, hence threshold 90, slo 300, semaphores 2. -/
def defaultConfig : Config :=
  { threshold := 90, slo := 300, semaphores := 2 }

/-- The mutable state read and written by one pass of the evaluation block of
`get_nonblocking_weather`: the task-local flags `warning`, `clearing`,
`fired`, the task-local timestamp `start`, and the shared counter
`self.count`. -/
structure TrackerState where
  warning : Bool
  clearing : Bool
  fired : Bool
  start : ℚ
  count : ℤ
  deriving DecidableEq, Repr

/-- State at the top of `get_nonblocking_weather`: `start = time.time()`,
`warning = clearing = fired = False`, and `self.count = 0` from `__init__`. -/
def initialState (start : ℚ) : TrackerState :=
  { warning := false, clearing := false, fired := false
    start := start, count := 0 }

/-- The density floor `(self.semaphores * (self.slo / 10)) - 1` appearing in
both SLO checks (Python true division, hence a rational value). -/
def densityFloor (cfg : Config) : ℚ :=
  (cfg.semaphores : ℚ) * ((cfg.slo : ℚ) / 10) - 1

/-- The method `MonitorDCTemp.counter`: without `subtract` it increments
`self.count`; with `subtract` it decrements only when `self.count > 0`. -/
def counter (subtract : Bool) (count : ℤ) : ℤ :=
  if !subtract then count + 1
  else if count > 0 then count - 1
  else count

/-- The evaluation block of `get_nonblocking_weather` (source lines 230-284)
run on one well-formed sample: classify `temp` against the threshold, update
the tracker state, and return the severity of the notification sent by
`self.notify`, if any. -/
def evaluate (cfg : Config) (s : TrackerState) (now temp : ℚ) :
    TrackerState × Option Severity :=
  if temp > cfg.threshold then
    if s.warning = false then
      ({ warning := true, clearing := false, fired := s.fired
         start := now, count := 1 }, none)
    else if s.warning = true ∧ now - s.start > (cfg.slo : ℚ) ∧
        ((counter false s.count : ℤ) : ℚ) > densityFloor cfg then
      ({ warning := false, clearing := s.clearing, fired := true
         start := s.start, count := 0 }, some .breach)
    else
      ({ s with count := counter false s.count }, none)
  else
    if s.warning = true ∧ s.clearing = false then
      ({ warning := false, clearing := true, fired := s.fired
         start := now, count := 1 }, none)
    else if s.clearing = true ∧ now - s.start > (cfg.slo : ℚ) ∧
        ((counter false s.count : ℤ) : ℚ) > densityFloor cfg then
      if s.fired = true then
        ({ warning := s.warning, clearing := false, fired := false
           start := s.start, count := 0 }, some .clear)
      else
        ({ warning := s.warning, clearing := false, fired := s.fired
           start := s.start, count := 0 }, none)
    else if s.fired = false ∧ s.clearing = false then
      ({ s with count := 0 }, none)
    else
      ({ s with count := counter false s.count }, none)

/-- Outcome of one `client.get` poll inside the loop: either the transport
layer raised (connection error, timeout), or a response arrived with a status
code and with the values of `json['main']['temp']` and `json['name']` when
those keys are present. -/
inductive PollOutcome
  | transportError
  | response (status : ℕ) (temp : Option ℚ) (name : Option String)
  deriving DecidableEq, Repr

/-- One iteration of the polling loop applied to a poll outcome, as written
in the source: a non-OK status is logged and skipped; an OK response is fed
to the evaluation block, but reading a missing `main`/`temp` or `name` key
raises `KeyError`; a transport error raises out of `await client.get`.
Neither exception is caught anywhere in `get_nonblocking_weather`, so
`Except.error s` models the polling task dying with the shared state `s`
left as it was. -/
def pollStep (cfg : Config) (s : TrackerState) (now : ℚ) (o : PollOutcome) :
    Except TrackerState (TrackerState × Option Severity) :=
  match o with
  | .transportError => .error s
  | .response status temp name =>
      if status = 200 then
        match temp, name with
        | some t, some _ => .ok (evaluate cfg s now t)
        | _, _ => .error s
      else
        .ok (s, none)

/-- Run the evaluation block over a list of `(now, temp)` samples, recording
the state after each sample and the notification it emitted. -/
def runTrace (cfg : Config) : TrackerState → List (ℚ × ℚ) →
    List (TrackerState × Option Severity)
  | _, [] => []
  | s, (now, temp) :: rest =>
      evaluate cfg s now temp ::
        runTrace cfg (evaluate cfg s now temp).1 rest

/-- All samples of a list classify as clear (value at or below threshold). -/
def allClear (cfg : Config) (samples : List (ℚ × ℚ)) : Bool :=
  samples.all fun p => decide (p.2 ≤ cfg.threshold)

/-- Every step of a trace emitted no notification and ended with both phase
flags down and the counter at zero. -/
def nominalQuiet (l : List (TrackerState × Option Severity)) : Bool :=
  l.all fun p =>
    decide (p.2 = none) && !p.1.warning && !p.1.clearing && decide (p.1.count = 0)

/-- Every step of a trace emitted no notification and never raised the
`clearing` flag. -/
def noClearProgress (l : List (TrackerState × Option Severity)) : Bool :=
  l.all fun p => decide (p.2 = none) && !p.1.clearing

/-- The geolocation attributes `self.lat` and `self.lon`. -/
structure Location where
  lat : ℚ
  lon : ℚ
  deriving DecidableEq, Repr

/-- Outcome of the geocoding request in `set_location`: the transport layer
raised, or a response arrived with a status code and the values of
`json['lat']` and `json['lon']` when those keys are present. -/
inductive GeoResult
  | transportError
  | response (status : ℕ) (mlat : Option ℚ) (mlon : Option ℚ)
  deriving DecidableEq, Repr

/-- The method `MonitorDCTemp.set_location` applied to the outcome of its
request: a
non-OK status raises, a missing `lat` or `lon` key raises while evaluating
the right-hand side of the tuple assignment (so neither attribute is
written), and the bare `except:` turns every exception into `return False`
with the previous location intact; on success both attributes are set from
the response and the method returns `True`. -/
def set_location (loc : Location) (r : GeoResult) : Bool × Location :=
  match r with
  | .transportError => (false, loc)
  | .response status mlat mlon =>
      if status ≠ 200 then (false, loc)
      else
        match mlat, mlon with
        | some a, some b => (true, { lat := a, lon := b })
        | some _, none => (false, loc)
        | none, some _ => (false, loc)
        | none, none => (false, loc)

/-- A geocoding outcome that makes `set_location` fail: transport error,
non-success status, or a payload missing `lat` or `lon`. -/
def geoFails (r : GeoResult) : Bool :=
  match r with
  | .transportError => true
  | .response status mlat mlon =>
      decide (status ≠ 200) || mlat.isNone || mlon.isNone

/-- State of the `asyncio.Semaphore` created in `parse_cmdline` together
with the number of polling tasks currently inside their `async with` block
(each such task has exactly one permit and keeps it across its
`client.get` call). `value` is the semaphore's internal counter. -/
structure SemState where
  value : ℕ
  held : ℕ
  deriving DecidableEq, Repr

/-- The two permit operations of the cooperative scheduler: a task enters
`async with semaphore` only when the counter is positive (otherwise it
blocks), and a task that holds a permit releases it when the iteration's
body finishes. -/
inductive SemStep : SemState → SemState → Prop
  | acquire (s : SemState) (h : 0 < s.value) :
      SemStep s ⟨s.value - 1, s.held + 1⟩
  | release (s : SemState) (h : 0 < s.held) :
      SemStep s ⟨s.value + 1, s.held - 1⟩

/-- States reachable from `asyncio.Semaphore(n)` with no task yet inside its
`async with` block. -/
inductive SemReachable (n : ℕ) : SemState → Prop
  | init : SemReachable n ⟨n, 0⟩
  | step {s t : SemState} : SemReachable n s → SemStep s t → SemReachable n t

/-- Applying `counter` without `subtract` is a plain increment. -/
lemma counter_inc (c : ℤ) : counter false c = c + 1 := rfl

/-- A clear sample evaluated in the all-flags-down, zero-count state only
rewrites the counter back to `0` and emits nothing. -/
lemma evaluate_nominal_clear (cfg : Config) (s : TrackerState) (now temp : ℚ)
    (hw : s.warning = false) (hc : s.clearing = false) (hf : s.fired = false)
    (ht : temp ≤ cfg.threshold) :
    evaluate cfg s now temp = ({ s with count := 0 }, none) := by
  have ht' : ¬ temp > cfg.threshold := not_lt.mpr ht
  simp [evaluate, hw, hc, hf, ht']

/-- Invariant run: from any state with both phase flags down and no alert
active, a trace of clear samples stays quiet and nominal. -/
lemma runTrace_nominal (cfg : Config) (s : TrackerState)
    (samples : List (ℚ × ℚ))
    (hw : s.warning = false) (hc : s.clearing = false) (hf : s.fired = false)
    (h : allClear cfg samples = true) :
    nominalQuiet (runTrace cfg s samples) = true := by
  induction samples generalizing s with
  | nil => rfl
  | cons p rest ih =>
      obtain ⟨now, temp⟩ := p
      have hp : temp ≤ cfg.threshold ∧ allClear cfg rest = true := by
        simpa [allClear] using h
      have htail := ih { s with count := 0 } hw hc hf hp.2
      rw [runTrace, evaluate_nominal_clear cfg s now temp hw hc hf hp.1]
      simp only [nominalQuiet, List.all_cons, Bool.and_eq_true] at htail ⊢
      exact ⟨by simp [hw, hc], htail⟩

/-- A clear sample evaluated in the post-emission stuck state (`warning` and
`clearing` both down but `fired` still set) matches no branch: the counter is
merely incremented and nothing is emitted. -/
lemma evaluate_stuck_clear (cfg : Config) (s : TrackerState) (now temp : ℚ)
    (hw : s.warning = false) (hc : s.clearing = false) (hf : s.fired = true)
    (ht : temp ≤ cfg.threshold) :
    evaluate cfg s now temp = ({ s with count := s.count + 1 }, none) := by
  have ht' : ¬ temp > cfg.threshold := not_lt.mpr ht
  simp [evaluate, counter, hw, hc, hf, ht']

/-- From the post-emission stuck state, an arbitrarily long run of clear
samples never enters `Clearing` and never emits any notification. -/
lemma runTrace_stuck (cfg : Config) (s : TrackerState)
    (samples : List (ℚ × ℚ))
    (hw : s.warning = false) (hc : s.clearing = false) (hf : s.fired = true)
    (h : allClear cfg samples = true) :
    noClearProgress (runTrace cfg s samples) = true := by
  induction samples generalizing s with
  | nil => rfl
  | cons p rest ih =>
      obtain ⟨now, temp⟩ := p
      have hp : temp ≤ cfg.threshold ∧ allClear cfg rest = true := by
        simpa [allClear] using h
      have htail := ih { s with count := s.count + 1 } hw hc hf hp.2
      rw [runTrace, evaluate_stuck_clear cfg s now temp hw hc hf hp.1]
      simp only [noClearProgress, List.all_cons, Bool.and_eq_true] at htail ⊢
      exact ⟨by simp [hc], htail⟩

end MonitorDCTemp

namespace MonitorDCTemp

/-- C3: for every sequence of samples whose values are all at or below the
threshold, evaluated from the initial state, no notification is ever emitted
and the tracker stays nominal throughout: after every sample both phase
flags are down and the counter is back at `0`. -/
theorem C3_hysteresis (cfg : Config) (t0 : ℚ) (samples : List (ℚ × ℚ))
    (h : allClear cfg samples = true) :
    nominalQuiet (runTrace cfg (initialState t0) samples) = true :=
  runTrace_nominal cfg (initialState t0) samples rfl rfl rfl h

/-- Concrete instance of `C3_hysteresis`: three clear samples (one exactly at
the threshold) from the initial state. -/
theorem C3_hysteresis_witness :
    allClear defaultConfig [(5, 50), (15, 89), (25, 90)] = true ∧
    nominalQuiet (runTrace defaultConfig (initialState 0)
      [(5, 50), (15, 89), (25, 90)]) = true :=
  ⟨by norm_num [allClear, defaultConfig],
   C3_hysteresis defaultConfig 0 [(5, 50), (15, 89), (25, 90)]
     (by norm_num [allClear, defaultConfig])⟩

/-- C1 as stated is false at the window boundary: in `Warning` with
`windowStart = 0`, `count = 60`, a breaching sample at `now = 300` satisfies
`now - windowStart ≥ sloWindow` and the density floor (61 > 59), yet the code
emits nothing, because the source test is strict (`time.time() - start >
self.slo`). -/
theorem C1_counterexample :
    (300 : ℚ) - (⟨true, false, false, 0, 60⟩ : TrackerState).start ≥
      (defaultConfig.slo : ℚ) ∧
    (((⟨true, false, false, 0, 60⟩ : TrackerState).count + 1 : ℤ) : ℚ) >
      densityFloor defaultConfig ∧
    (100 : ℚ) > defaultConfig.threshold ∧
    (⟨true, false, false, 0, 60⟩ : TrackerState).warning = true ∧
    (evaluate defaultConfig ⟨true, false, false, 0, 60⟩ 300 100).2 = none := by
  refine ⟨by norm_num [defaultConfig], by norm_num [densityFloor, defaultConfig],
    by norm_num [defaultConfig], rfl, ?_⟩
  norm_num [evaluate, counter, densityFloor, defaultConfig]

/-- C1 (amended): while `warning` is set, a breaching sample emits a breach
notification if and only if `now - start` strictly exceeds the SLO window and
the post-increment count strictly exceeds the density floor; on emission
`fired` is set and the count is reset to `0`. -/
theorem C1_breach_emission (cfg : Config) (s : TrackerState) (now temp : ℚ)
    (hw : s.warning = true) (ht : temp > cfg.threshold) :
    ((evaluate cfg s now temp).2 = some .breach ↔
      now - s.start > (cfg.slo : ℚ) ∧
        ((s.count + 1 : ℤ) : ℚ) > densityFloor cfg) ∧
    ((evaluate cfg s now temp).2 = some .breach →
      (evaluate cfg s now temp).1.fired = true ∧
      (evaluate cfg s now temp).1.count = 0) := by
  have hnw : ¬ s.warning = false := by simp [hw]
  simp only [evaluate, counter_inc, if_pos ht, if_neg hnw]
  by_cases hcond : now - s.start > (cfg.slo : ℚ) ∧
      ((s.count + 1 : ℤ) : ℚ) > densityFloor cfg
  · rw [if_pos ⟨hw, hcond.1, hcond.2⟩]
    exact ⟨by simpa using hcond, fun _ => ⟨rfl, rfl⟩⟩
  · have hcond' : ¬ (s.warning = true ∧ now - s.start > (cfg.slo : ℚ) ∧
        ((s.count + 1 : ℤ) : ℚ) > densityFloor cfg) := by
      intro hh
      exact hcond ⟨hh.2.1, hh.2.2⟩
    rw [if_neg hcond']
    constructor
    · simp only [iff_false, hcond]
      simp
    · intro hh
      simp at hh

/-- Concrete instance of `C1_breach_emission`: in `Warning` with
`windowStart = 0` and `count = 60`, a breaching sample at `now = 301` emits
the breach notification. -/
theorem C1_breach_emission_witness :
    (evaluate defaultConfig ⟨true, false, false, 0, 60⟩ 301 100).2 =
      some .breach :=
  ((C1_breach_emission defaultConfig ⟨true, false, false, 0, 60⟩ 301 100
    rfl (by norm_num [defaultConfig])).1).mpr
    (by norm_num [densityFloor, defaultConfig])

/-- C2 is a code bug: emitting the breach notification clears the `warning`
flag (without restarting the window), so immediately afterwards the tracker
is in no phase at all; a following clear sample matches no transition branch,
`Clearing` is never entered, and an arbitrarily long run of clear samples —
in particular one completing the SLO window with the density floor met —
never produces the clear notification promised by the source's own comments,
even though `fired` is still set. -/
theorem C2_stuck_after_breach :
    evaluate defaultConfig ⟨true, false, false, 0, 60⟩ 301 100 =
      (⟨false, false, true, 0, 0⟩, some .breach) ∧
    evaluate defaultConfig ⟨false, false, true, 0, 0⟩ 311 50 =
      (⟨false, false, true, 0, 1⟩, none) ∧
    ∀ samples : List (ℚ × ℚ), allClear defaultConfig samples = true →
      noClearProgress
        (runTrace defaultConfig ⟨false, false, true, 0, 0⟩ samples) = true := by
  refine ⟨?_, ?_, ?_⟩
  · norm_num [evaluate, counter, densityFloor, defaultConfig]
  · norm_num [evaluate, counter, densityFloor, defaultConfig]
  · intro samples h
    exact runTrace_stuck defaultConfig ⟨false, false, true, 0, 0⟩ samples
      rfl rfl rfl h

/-- Concrete instance of `C2_stuck_after_breach`: a full 300-second window of
steady clear samples after the breach notification yields no clear
notification and `clearing` never goes up. -/
theorem C2_stuck_after_breach_witness :
    allClear defaultConfig [(311, 50), (411, 50), (511, 50), (611, 50)] = true ∧
    noClearProgress (runTrace defaultConfig ⟨false, false, true, 0, 0⟩
      [(311, 50), (411, 50), (511, 50), (611, 50)]) = true :=
  ⟨by norm_num [allClear, defaultConfig],
   (C2_stuck_after_breach).2.2 [(311, 50), (411, 50), (511, 50), (611, 50)]
     (by norm_num [allClear, defaultConfig])⟩

/-- C4: when no breach notification has ever fired (`fired = false`), a clear
sample that completes the SLO window in `Clearing` with the density floor met
emits no notification of any kind and silently resets the tracker to nominal
with the counter at `0`. -/
theorem C4_silent_reset (cfg : Config) (s : TrackerState) (now temp : ℚ)
    (hc : s.clearing = true) (hw : s.warning = false) (hf : s.fired = false)
    (ht : temp ≤ cfg.threshold)
    (hwin : now - s.start > (cfg.slo : ℚ))
    (hd : ((s.count + 1 : ℤ) : ℚ) > densityFloor cfg) :
    (evaluate cfg s now temp).2 = none ∧
    (evaluate cfg s now temp).1.warning = false ∧
    (evaluate cfg s now temp).1.clearing = false ∧
    (evaluate cfg s now temp).1.fired = false ∧
    (evaluate cfg s now temp).1.count = 0 := by
  have ht' : ¬ temp > cfg.threshold := not_lt.mpr ht
  have hd' : densityFloor cfg < (s.count : ℚ) + 1 := by
    push_cast at hd
    exact hd
  simp [evaluate, counter_inc, ht', hw, hc, hf, hwin, hd']

/-- Concrete instance of `C4_silent_reset`: a completed clearing window with
61 accumulated clear samples and no alert active resets silently. -/
theorem C4_silent_reset_witness :
    (evaluate defaultConfig ⟨false, true, false, 0, 60⟩ 301 50).2 = none ∧
    (evaluate defaultConfig ⟨false, true, false, 0, 60⟩ 301 50).1.warning =
      false ∧
    (evaluate defaultConfig ⟨false, true, false, 0, 60⟩ 301 50).1.clearing =
      false ∧
    (evaluate defaultConfig ⟨false, true, false, 0, 60⟩ 301 50).1.fired =
      false ∧
    (evaluate defaultConfig ⟨false, true, false, 0, 60⟩ 301 50).1.count = 0 :=
  C4_silent_reset defaultConfig ⟨false, true, false, 0, 60⟩ 301 50
    rfl rfl rfl (by norm_num [defaultConfig]) (by norm_num [defaultConfig])
    (by norm_num [densityFloor, defaultConfig])

/-- C5: in `Warning`, a single clear sample moves the tracker to `Clearing`
with `start = now` and `count = 1`; a breaching sample arriving before the
SLO window elapses returns it to `Warning` with a fresh window
(`start` = the breach time, `count = 1`), so the partial clearing window
leaves no residue in the state. -/
theorem C5_transient_dip (cfg : Config) (s : TrackerState)
    (now1 temp1 now2 temp2 : ℚ)
    (hw : s.warning = true) (hc : s.clearing = false)
    (h1 : temp1 ≤ cfg.threshold) (h2 : temp2 > cfg.threshold)
    (hbefore : now2 - now1 < (cfg.slo : ℚ)) :
    evaluate cfg s now1 temp1 =
      (⟨false, true, s.fired, now1, 1⟩, none) ∧
    evaluate cfg (⟨false, true, s.fired, now1, 1⟩ : TrackerState) now2 temp2 =
      (⟨true, false, s.fired, now2, 1⟩, none) := by
  have h1' : ¬ temp1 > cfg.threshold := not_lt.mpr h1
  constructor
  · simp [evaluate, h1', hw, hc]
  · simp [evaluate, h2]

/-- Concrete instance of `C5_transient_dip`: one 85°F dip out of `Warning`
followed 20 seconds later by a 95°F breach rebuilds a fresh `Warning`
window. -/
theorem C5_transient_dip_witness :
    evaluate defaultConfig ⟨true, false, true, 0, 7⟩ 50 85 =
      (⟨false, true, true, 50, 1⟩, none) ∧
    evaluate defaultConfig ⟨false, true, true, 50, 1⟩ 70 95 =
      (⟨true, false, true, 70, 1⟩, none) :=
  C5_transient_dip defaultConfig ⟨true, false, true, 0, 7⟩ 50 85 70 95
    rfl rfl (by norm_num [defaultConfig]) (by norm_num [defaultConfig])
    (by norm_num [defaultConfig])

/-- C6 exposes a code bug: a success-status (200) response whose payload
lacks `main`/`temp` makes `r.json()['main']['temp']` raise `KeyError`, which
nothing in `get_nonblocking_weather` catches; the shared state is left
unchanged (the exception fires before any mutation) but the polling task
dies instead of continuing to its next iteration. -/
theorem C6_malformed_crash :
    pollStep defaultConfig (initialState 0) 5 (.response 200 none none) =
      .error (initialState 0) ∧
    pollStep defaultConfig (initialState 0) 5
        (.response 200 none (some "Ridgewood")) =
      .error (initialState 0) ∧
    ∀ cfg : Config, ∀ s : TrackerState, ∀ now : ℚ,
      pollStep cfg s now (.response 200 none none) = .error s :=
  ⟨rfl, rfl, fun _ _ _ => rfl⟩

/-- C7 exposes a code bug: a non-success HTTP status is indeed logged and
skipped with the state unchanged, but a transport failure or timeout raises
out of `await client.get` with no handler in scope, killing the polling task
rather than letting the loop proceed. -/
theorem C7_transport_fatal :
    (∀ cfg : Config, ∀ s : TrackerState, ∀ now : ℚ,
      pollStep cfg s now .transportError = .error s) ∧
    pollStep defaultConfig (initialState 0) 5 .transportError =
      .error (initialState 0) ∧
    pollStep defaultConfig (initialState 0) 5 (.response 500 none none) =
      .ok (initialState 0, none) ∧
    pollStep defaultConfig (initialState 0) 5 (.response 503 (some 95) none) =
      .ok (initialState 0, none) :=
  ⟨fun _ _ _ => rfl, rfl, by norm_num [pollStep], by norm_num [pollStep]⟩

/-- C9: `set_location` returns `False` and leaves `lat`/`lon` at their
previous values whenever the lookup fails (transport error, non-success
status, or missing `lat`/`lon` in the payload), and returns `True` with both
attributes set from the response on success. -/
theorem C9_set_location (loc : Location) (r : GeoResult) :
    (geoFails r = true → set_location loc r = (false, loc)) ∧
    (∀ a b : ℚ, r = .response 200 (some a) (some b) →
      set_location loc r = (true, { lat := a, lon := b })) := by
  constructor
  · intro h
    match r with
    | .transportError => rfl
    | .response status mlat mlon =>
        by_cases hst : status = 200 <;>
          cases mlat <;> cases mlon <;>
            simp_all [set_location, geoFails]
  · intro a b hr
    subst hr
    simp [set_location]

/-- Concrete instances of `C9_set_location`: a transport failure, a missing
`lon` key, and a successful lookup, from the default location. -/
theorem C9_set_location_witness :
    geoFails .transportError = true ∧
    set_location ⟨407036/10000, -738961/10000⟩ .transportError =
      (false, ⟨407036/10000, -738961/10000⟩) ∧
    geoFails (.response 200 (some 41) none) = true ∧
    set_location ⟨407036/10000, -738961/10000⟩ (.response 200 (some 41) none) =
      (false, ⟨407036/10000, -738961/10000⟩) ∧
    set_location ⟨407036/10000, -738961/10000⟩
        (.response 200 (some 41) (some (-74))) =
      (true, ⟨41, -74⟩) :=
  ⟨rfl,
   (C9_set_location ⟨407036/10000, -738961/10000⟩ .transportError).1 rfl,
   rfl,
   (C9_set_location ⟨407036/10000, -738961/10000⟩
     (.response 200 (some 41) none)).1 rfl,
   (C9_set_location ⟨407036/10000, -738961/10000⟩
     (.response 200 (some 41) (some (-74)))).2 41 (-74) rfl⟩

/-- C10: the shared counter never goes negative: `counter` with `subtract`
only decrements a positive counter (and is a plain increment otherwise), the
evaluation step only writes `0`, `1` or an increment, and the counter starts
at `0`, so nonnegativity is preserved by every operation. -/
theorem C10_count_nonneg (b : Bool) (c : ℤ) (cfg : Config)
    (s : TrackerState) (now temp : ℚ)
    (hc : 0 ≤ c) (hs : 0 ≤ s.count) :
    0 ≤ counter b c ∧
    counter false c = c + 1 ∧
    (0 < c → counter true c = c - 1) ∧
    (c ≤ 0 → counter true c = c) ∧
    0 ≤ (evaluate cfg s now temp).1.count ∧
    (initialState now).count = 0 := by
  refine ⟨?_, rfl, ?_, ?_, ?_, rfl⟩
  · unfold counter
    split
    · omega
    · split <;> omega
  · intro h
    simp [counter, h]
  · intro h
    have h' : ¬ c > 0 := by omega
    simp [counter, h']
  · unfold evaluate
    split_ifs <;> simp [counter_inc] <;> omega

/-- Concrete instance of `C10_count_nonneg` at counter value `0` and the
initial tracker state. -/
theorem C10_count_nonneg_witness :
    0 ≤ counter true 0 ∧
    0 ≤ (evaluate defaultConfig (initialState 0) 5 50).1.count :=
  ⟨(C10_count_nonneg true 0 defaultConfig (initialState 0) 5 50
      le_rfl le_rfl).1,
   (C10_count_nonneg true 0 defaultConfig (initialState 0) 5 50
      le_rfl le_rfl).2.2.2.2.1⟩

/-- Reachable semaphore states conserve permits: the internal counter and
the held permits always sum to the pool size. -/
lemma semReachable_conserved (n : ℕ) (s : SemState)
    (h : SemReachable n s) : s.value + s.held = n := by
  induction h with
  | init => rfl
  | @step u t hr hstep ih =>
      cases hstep with
      | acquire hv =>
          show u.value - 1 + (u.held + 1) = n
          omega
      | release hh =>
          show u.value + 1 + (u.held - 1) = n
          omega

/-- C8: with a permit pool of size `n`, no reachable scheduler state has
more than `n` tasks inside their `async with semaphore` block, hence never
more than `n` outstanding measurement-source requests (each request is made
while holding one permit). -/
theorem C8_permit_bound (n : ℕ) (s : SemState)
    (h : SemReachable n s) : s.held ≤ n := by
  have := semReachable_conserved n s h
  omega

/-- Concrete instance of `C8_permit_bound`: with the default pool of 2
permits, after one acquisition one permit is held, within the bound. -/
theorem C8_permit_bound_witness :
    SemReachable defaultConfig.semaphores ⟨1, 1⟩ ∧
    (⟨1, 1⟩ : SemState).held ≤ defaultConfig.semaphores :=
  ⟨SemReachable.step SemReachable.init
      (SemStep.acquire ⟨2, 0⟩ (by norm_num)),
   C8_permit_bound defaultConfig.semaphores ⟨1, 1⟩
     (SemReachable.step SemReachable.init
       (SemStep.acquire ⟨2, 0⟩ (by norm_num)))⟩

end MonitorDCTemp
